import Mathlib

set_option maxRecDepth 16384

/-
Shallow embedding of the SSINS repository (SSINS/incoherent_noise_spectrum.py
and Scripts/Event_Brightness.py).

Conventions of the embedding:
* The `data` attribute of an `INS` object is a numpy masked array of shape
  (T, 1, F, P).  The singleton spw axis is elided; an array is a pair of a
  value function and a Boolean mask function over (time, channel,
  polarization) indices, together with the three extents.
* Floating point numbers are modelled by exact arithmetic: the data values
  live in ℚ and the final standardization formula, which involves
  sqrt and pi, lives in ℝ.
* Numpy masked-array semantics: a masked mean excludes masked entries;
  arithmetic on masked arrays masks a result entry when an operand entry is
  masked or the operation is invalid there (division by zero).
* Python exceptions are modelled with `Except String`.
-/

/-- The `INS` object state: the attributes of the object that
`mean_subtract` reads.  `dataVal`/`dataMask` model the masked array
`self.data` (shape (T, 1, F, P), spw axis elided), `nbls` models
`self.Nbls`, and `order` models `self.order`. -/
structure INS where
  T : Nat
  F : Nat
  P : Nat
  dataVal : Nat → Nat → Nat → ℚ
  dataMask : Nat → Nat → Nat → Bool
  nbls : Nat → Nat → Nat → ℚ
  order : Nat

/-- A masked array result of `mean_subtract`: value function and mask
function over (time, channel, polarization). -/
structure MSResult where
  val : Nat → Nat → Nat → ℝ
  mask : Nat → Nat → Nat → Bool

/-- Translation of `self.data[:, :, f].mean(axis=0)` at channel `f`,
polarization `p`: the mean over the time axis of the unmasked entries
(numpy masked-array mean excludes masked entries).  ℚ division by zero is 0;
that case is covered by the output mask (`allMasked0`). -/
def channelMeanL (s : INS) (f p : Nat) : ℚ :=
  let ts := (List.range s.T).filter (fun u => !(s.dataMask u f p))
  ((ts.map (fun u => s.dataVal u f p)).sum) / (ts.length : ℚ)

/-- Whether the channel (f, p) is masked at every time sample.  When it is,
the numpy masked mean at (f, p) is itself masked. -/
def allMasked0 (s : INS) (f p : Nat) : Bool :=
  (List.range s.T).all (fun u => s.dataMask u f p)

/-- Line 95: `C = 4 / np.pi - 1`. -/
noncomputable def Cconst : ℝ := 4 / Real.pi - 1

/-- Line 97, value part:
`(self.data[:, :, f] / self.data[:, :, f].mean(axis=0) - 1) * np.sqrt(self.Nbls[:, :, f] / C)`. -/
noncomputable def ms0val (s : INS) (t f p : Nat) : ℝ :=
  ((s.dataVal t f p / channelMeanL s f p - 1 : ℚ) : ℝ)
    * Real.sqrt (((s.nbls t f p : ℚ) : ℝ) / Cconst)

/-- Line 97, mask part: numpy masked arithmetic masks the output where the
data entry is masked, where the channel mean is masked (fully masked
channel), or where the division is invalid (zero channel mean). -/
def ms0mask (s : INS) (t f p : Nat) : Bool :=
  s.dataMask t f p || allMasked0 s f p || decide (channelMeanL s f p = 0)

/-- Whether some (t, f, p) entry of `self.data` is unmasked.  In the
`order > 0` branch this is exactly the condition under which some
polarization has a nonempty `good_chans`, so that the loop body at line 115
(`if coeff_write:`) is reached. -/
def hasUnmaskedEntry (s : INS) : Bool :=
  (List.range s.P).any (fun p =>
    (List.range s.F).any (fun f =>
      (List.range s.T).any (fun t => !(s.dataMask t f p))))

/-- The Python exceptions the embedded code can raise. -/
inductive PyErr where
  | assertionError : String → PyErr
  | nameError : String → PyErr
  | attributeError : String → PyErr
deriving DecidableEq

/-- Translation of `INS.mean_subtract` (lines 93-123), at the default
frequency slice `f=slice(None)`.
* `order == 0` (line 96-97): the standardized array `ms0val`/`ms0mask`.
* `order > 0` (lines 98-121): the loop body reads the name `coeff_write`
  (line 115), which is defined nowhere in the program, so the first
  polarization with a nonempty `good_chans` raises `NameError`.  Such a
  polarization exists exactly when some entry of `data` is unmasked.
* `order > 0` with every entry masked: no polarization has a good channel,
  no loop body runs, and `MS = np.zeros_like(self.data)` is returned;
  `np.zeros_like` of a masked array yields zeros carrying the mask of its
  template, so the result is zero-valued with the mask of `data`. -/
noncomputable def mean_subtract (s : INS) : Except PyErr MSResult :=
  if s.order = 0 then
    Except.ok ⟨fun t f p => ms0val s t f p, fun t f p => ms0mask s t f p⟩
  else if hasUnmaskedEntry s then
    Except.error (PyErr.nameError "name coeff_write is not defined")
  else
    Except.ok ⟨fun _ _ _ => 0, fun t f p => s.dataMask t f p⟩

/-- Value of a `mean_subtract` result at an index (0 on the error case). -/
noncomputable def msVal (r : Except PyErr MSResult) (t f p : Nat) : ℝ :=
  match r with
  | Except.ok m => m.val t f p
  | Except.error _ => 0

/-- Mask of a `mean_subtract` result at an index (true on the error case). -/
def msMask (r : Except PyErr MSResult) (t f p : Nat) : Bool :=
  match r with
  | Except.ok m => m.mask t f p
  | Except.error _ => true

/-- Whether a `mean_subtract` call returned normally. -/
def msIsOk (r : Except PyErr MSResult) : Bool :=
  match r with
  | Except.ok _ => true
  | Except.error _ => false

/-
Order > 0 machinery (lines 98-121).  `np.ma.polyfit(x, y, deg)` with an
unmasked 1-D `x` and a 2-D masked `y` drops the rows where the mask of the
first column of `y` is set and calls `np.polyfit` on the remaining rows
(`numpy/ma/extras.py`); with a 1-D masked `y` it drops the rows where `y`
itself is masked.  `np.polyfit` computes polynomial least-squares
coefficients, highest degree first, column by column.  The least-squares
solve is embedded as the normal-equations system solved by exact Gaussian
elimination over ℚ.
-/

/-- Dot product of two rational vectors. -/
def dotQ (a b : List ℚ) : ℚ := (List.zipWith (fun x y => x * y) a b).sum

/-- Exact Gaussian elimination for an augmented n x (n+1) system given as a
list of rows; a variable whose column has no usable pivot is set to 0. -/
def gaussSolve : Nat → List (List ℚ) → List ℚ
  | 0, _ => []
  | n + 1, rows =>
    match rows.find? (fun r => decide (r.headD 0 ≠ 0)) with
    | none => 0 :: gaussSolve n (rows.map (fun r => r.drop 1))
    | some piv =>
      let p0 := piv.headD 0
      let reduced := (rows.erase piv).map
        (fun r => List.zipWith (fun a b => a - (r.headD 0 / p0) * b) (r.drop 1) (piv.drop 1))
      let sol := gaussSolve n reduced
      ((piv.getLastD 0 - dotQ ((piv.drop 1).dropLast) sol) / p0) :: sol

/-- Column i of the Vandermonde design matrix for abscissas `xs` and degree
`deg`: the powers `xs ^ (deg - i)` (highest degree first, as `np.polyfit`
orders its coefficients). -/
def vandermondeCol (xs : List ℚ) (deg i : Nat) : List ℚ :=
  xs.map (fun x => x ^ (deg - i))

/-- Row i of the normal-equations system `(Vᵀ V) c = Vᵀ y`, augmented with
its right-hand side. -/
def normalRow (xs ys : List ℚ) (deg i : Nat) : List ℚ :=
  ((List.range (deg + 1)).map
      (fun j => dotQ (vandermondeCol xs deg i) (vandermondeCol xs deg j)))
    ++ [dotQ (vandermondeCol xs deg i) ys]

/-- `np.polyfit(xs, ys, deg)` for a single right-hand-side column: the
least-squares coefficient vector, highest degree first. -/
def polyfitQ (xs ys : List ℚ) (deg : Nat) : List ℚ :=
  gaussSolve (deg + 1) ((List.range (deg + 1)).map (fun i => normalRow xs ys deg i))

/-- Line 119: `mu = np.sum([np.outer(x**(self.order - k), coeff[k]) for k in
range(self.order + 1)], axis=0)`, i.e. the fitted polynomial evaluated at
abscissa `x`: `Σ_k coeff[k] * x ^ (deg - k)`. -/
def polyEvalDesc (coeff : List ℚ) (deg : Nat) (x : ℚ) : ℚ :=
  ((List.range (deg + 1)).map (fun k => coeff.getD k 0 * x ^ (deg - k))).sum

/-- Line 105 condition: `np.all(y.mask, axis=0)` for a channel. -/
def fullyMasked (s : INS) (p ch : Nat) : Bool :=
  (List.range s.T).all (fun t => s.dataMask t ch p)

/-- Line 105: `good_chans = np.where(np.logical_not(np.all(y.mask, axis=0)))[0]`
for polarization `p`. -/
def goodChans (s : INS) (p : Nat) : List Nat :=
  (List.range s.F).filter (fun ch => !(fullyMasked s p ch))

/-- The per-time mask column of channel `ch` at polarization `p`
(a column of `good_data.mask`). -/
def channelMaskList (s : INS) (p ch : Nat) : List Bool :=
  (List.range s.T).map (fun t => s.dataMask t ch p)

/-- The abscissas `x = np.arange(1, T + 1)` restricted to the rows that
`np.ma.polyfit` keeps for mask pattern `pat` (rows where the pattern is
unset). -/
def keptX (s : INS) (pat : List Bool) : List ℚ :=
  ((List.range s.T).filter (fun t => !(pat.getD t true))).map (fun t => (t : ℚ) + 1)

/-- The data column of channel `ch` restricted to the rows kept for mask
pattern `pat`. -/
def keptY (s : INS) (p ch : Nat) (pat : List Bool) : List ℚ :=
  ((List.range s.T).filter (fun t => !(pat.getD t true))).map (fun t => s.dataVal t ch p)

/-- Lines 109-113: `np.unique(good_data.mask, axis=1, return_inverse=True)`
assigns channel `ch` to the unique mask column `unique_masks[:, mask_inv[ch]]`.
The unique columns are modelled by `dedup` of the column list (`np.unique`
sorts them, but which pattern a channel is grouped under does not depend on
the ordering), and `mask_inv[ch]` by the index of the channel's own column
among them. -/
def groupPattern (s : INS) (p ch : Nat) : List Bool :=
  let uniq := ((goodChans s p).map (fun c => channelMaskList s p c)).dedup
  uniq.getD (uniq.indexOf (channelMaskList s p ch)) []

/-- Lines 111-120 for one channel: `mu[:, ch]` as computed by the grouped
fit, i.e. the polynomial fitted (by `np.ma.polyfit` through the group's
shared mask pattern) to the channel's data, evaluated at time index `t`
(1-based abscissa `t + 1`). -/
def muGrouped (s : INS) (p ch t : Nat) : ℚ :=
  let pat := groupPattern s p ch
  polyEvalDesc (polyfitQ (keptX s pat) (keptY s p ch pat) s.order) s.order ((t : ℚ) + 1)

/-- Modelled from the spec: fitting each channel independently with the same
data and order, i.e. `np.ma.polyfit(x, y[:, ch], order)` for the single
channel, which drops exactly the rows masked in that channel, evaluated at
time index `t`. -/
def muIndep (s : INS) (p ch t : Nat) : ℚ :=
  let pat := channelMaskList s p ch
  polyEvalDesc (polyfitQ (keptX s pat) (keptY s p ch pat) s.order) s.order ((t : ℚ) + 1)

/-- Line 121, value part, for channel `ch` at time `t` given the fitted
expectation `mu` there:
`(good_data[:, chans] / mu - 1) * np.sqrt(self.Nbls[:, 0, f, i][:, good_chans[chans]] / C)`. -/
noncomputable def msFitVal (s : INS) (p ch t : Nat) (mu : ℚ) : ℝ :=
  ((s.dataVal t ch p / mu - 1 : ℚ) : ℝ)
    * Real.sqrt (((s.nbls t ch p : ℚ) : ℝ) / Cconst)

/-- The whole `INS` object: the state read by `mean_subtract` plus the
derived attribute `metric_ms` that `__init__` computes (line 71). -/
structure INSObj where
  st : INS
  metric_ms : Except PyErr MSResult

/-- Calling the method `self.mean_subtract()` on an object: the body
(lines 93-123) assigns only the local variables `C`, `MS`, `x`, `y`,
`good_chans`, `good_data`, `unique_masks`, `mask_inv`, `chans`, `coeff`,
`mu` and never writes an attribute of `self`, so the object state is
returned unchanged next to the method's result. -/
noncomputable def mean_subtract_call (o : INSObj) : INSObj × Except PyErr MSResult :=
  (o, mean_subtract o.st)

/-- Lines 70-71 of `INS.__init__`: `self.order = order` followed by
`self.metric_ms = self.mean_subtract()`; no other statement of the program
assigns `metric_ms`. -/
noncomputable def INS_init (s : INS) : INSObj :=
  { st := s, metric_ms := mean_subtract s }

/-
`INS._read` (lines 160-181).  The input mapping is abstracted to which keys
it carries, plus one property of the value loaded for `data`: whether the
loaded masked array carries a full boolean mask (`len(self.data.mask.shape)`
nonzero) or the scalar `nomask`.
-/

/-- The `read_paths` mapping, abstracted to key presence, plus whether the
loaded `data` array has a full (shaped) mask. -/
structure ReadPaths where
  hasData : Bool
  hasNbls : Bool
  hasFreqArray : Bool
  hasPols : Bool
  hasVisUnits : Bool
  dataMaskHasShape : Bool

/-- The outcome of a normal `_read` return: which attributes were set on
the object and which warnings were emitted. -/
structure ReadResult where
  attrsSet : List String
  warnings : List String

/-- Line 178 warning text for a missing optional key. -/
def optWarn (attr : String) : String :=
  "In order to use Catalog_Plot.py, please supply path to numpy loadable "
    ++ attr ++ " attribute for read_paths entry"

/-- Line 171 assertion text for a missing required key. -/
def reqAssert (attr : String) : String :=
  "You must supply a path to a numpy loadable " ++ attr
    ++ " file for read_paths entry"

/-- Translation of `INS._read` (lines 170-181):
* lines 170-173: for `data`, `Nbls`, `freq_array` in order, assert the key
  is present (else `AssertionError`) and set the attribute;
* lines 174-175: if the loaded `data` has no shaped mask, the statement
  `data.mask = np.zeros(self.data.shape, dtype=bool)` reads the undefined
  bare name `data` and raises `NameError`;
* lines 176-181: for `pols`, `vis_units`, warn and leave the attribute
  unset when the key is missing, else load and set it. -/
def read_model (rp : ReadPaths) : Except PyErr ReadResult :=
  if rp.hasData = false then Except.error (PyErr.assertionError (reqAssert "data"))
  else if rp.hasNbls = false then Except.error (PyErr.assertionError (reqAssert "Nbls"))
  else if rp.hasFreqArray = false then Except.error (PyErr.assertionError (reqAssert "freq_array"))
  else if rp.dataMaskHasShape = false then
    Except.error (PyErr.nameError "name data is not defined")
  else
    let s1 := if rp.hasPols then (["pols"], ([] : List String))
              else (([] : List String), [optWarn "pols"])
    let s2 := if rp.hasVisUnits then (["vis_units"], ([] : List String))
              else (([] : List String), [optWarn "vis_units"])
    Except.ok ⟨["data", "Nbls", "freq_array"] ++ s1.1 ++ s2.1, s1.2 ++ s2.2⟩

/-- Whether a `_read` outcome is an assertion failure. -/
def isAssertErr (r : Except PyErr ReadResult) : Bool :=
  match r with
  | Except.error (PyErr.assertionError _) => true
  | _ => false

/-- Whether a `_read` outcome is a normal return. -/
def isOkRead (r : Except PyErr ReadResult) : Bool :=
  match r with
  | Except.ok _ => true
  | Except.error _ => false

/-- Attributes set by a `_read` outcome (none on an exception). -/
def attrsOf (r : Except PyErr ReadResult) : List String :=
  match r with
  | Except.ok v => v.attrsSet
  | Except.error _ => []

/-- Warnings emitted by a `_read` outcome. -/
def warnsOf (r : Except PyErr ReadResult) : List String :=
  match r with
  | Except.ok v => v.warnings
  | Except.error _ => []

/-
`INS.save` (lines 125-158).  The object is abstracted to which attributes
exist; `outpath`, `obs` and `flag_choice` are constructor-set and taken as
present, and written files are recorded by schematic names.
-/

/-- Which attributes the object carries when `save` is called. -/
structure SaveAttrs where
  hasMatchEvents : Bool
  hasChisqEvents : Bool
  hasSampThreshEvents : Bool
  hasData : Bool
  hasDataMs : Bool
  hasNbls : Bool
  hasCounts : Bool
  hasBins : Bool
  hasFreqArray : Bool
  hasPols : Bool
  hasVisUnits : Bool

/-- Translation of `INS.save`: the files written, in order, and the outcome.
* Lines 138-140: `len(getattr(self, subtag_events))` needs the three event
  list attributes; a missing one raises `AttributeError` before any write.
* Lines 146-149: for `data`, `data_ms`, `Nbls` the file is opened (created)
  by the `with` statement before `getattr` runs, so a missing attribute
  errors after the file is created.
* Lines 150-153: for `counts`, `bins`, `getattr` is evaluated as an argument
  before `np.save` creates the file, so a missing attribute errors with no
  new file.
* Lines 155-158: `freq_array`, `pols`, `vis_units` are guarded by `hasattr`
  and skipped silently when absent. -/
def save_model (a : SaveAttrs) : List String × Except PyErr Unit :=
  if a.hasMatchEvents = false then ([], Except.error (PyErr.attributeError "match_events"))
  else if a.hasChisqEvents = false then ([], Except.error (PyErr.attributeError "chisq_events"))
  else if a.hasSampThreshEvents = false then
    ([], Except.error (PyErr.attributeError "samp_thresh_events"))
  else if a.hasData = false then (["arrs/data"], Except.error (PyErr.attributeError "data"))
  else if a.hasDataMs = false then
    (["arrs/data", "arrs/data_ms"], Except.error (PyErr.attributeError "data_ms"))
  else if a.hasNbls = false then
    (["arrs/data", "arrs/data_ms", "arrs/Nbls"], Except.error (PyErr.attributeError "Nbls"))
  else if a.hasCounts = false then
    (["arrs/data", "arrs/data_ms", "arrs/Nbls"], Except.error (PyErr.attributeError "counts"))
  else if a.hasBins = false then
    (["arrs/data", "arrs/data_ms", "arrs/Nbls", "arrs/counts"],
      Except.error (PyErr.attributeError "bins"))
  else
    (["arrs/data", "arrs/data_ms", "arrs/Nbls", "arrs/counts", "arrs/bins"]
      ++ (if a.hasFreqArray then ["metadata/freq_array"] else [])
      ++ (if a.hasPols then ["metadata/pols"] else [])
      ++ (if a.hasVisUnits then ["metadata/vis_units"] else []), Except.ok ())

/-- Whether a `save` outcome is an exception. -/
def isErrS (r : Except PyErr Unit) : Bool :=
  match r with
  | Except.error _ => true
  | Except.ok _ => false

/-
`Scripts/Event_Brightness.py`, shape loop (lines 41-56).  A match event is
a tuple whose last element is the shape label string and whose first
element is the time index; `event[:-1]` (the event body) is the tuple of
the remaining leading elements, modelled as the time index together with
the other non-string components.
-/

/-- A `match_events` entry: the tuple `(time, rest..., shape)`. -/
structure MatchEvent where
  time : Int
  rest : List Int
  shape : String

/-- The tuple `event[:-1]`. -/
def eventBody (e : MatchEvent) : Int × List Int := (e.time, e.rest)

/-- Line 46 condition: `event[:-1] == 'broad%s' % chan`.  The left-hand
side is a tuple and the right-hand side a string; in Python, values of
different types compare unequal, so this test is always False. -/
def bodyEqStr (_b : Int × List Int) (_s : String) : Bool := false

/-- Line 44: `chan = shape[-1]`, the final character of the shape label. -/
def shapeChan (shape : String) : String := shape.takeRight 1

/-- Translation of the per-shape body of the loop at lines 41-56, with the
brightness of an event body (`np.sum(ins.data.data[event])`) supplied as
the function `value`:
* line 42: keep the events whose last element equals `shape` and drop the
  label;
* lines 45-53: for `TV6`, `TV7`, `TV8`, collect the bodies of events whose
  body equals the string `'broad%s' % chan` (see `bodyEqStr`), collect
  their time indices, and remove from `events` (first occurrence each, as
  `list.remove`) every event whose time index occurs among them;
* lines 54-55: sum the brightness over the remaining events. -/
def eventBrightnessSum (matchEvents : List MatchEvent)
    (value : Int × List Int → ℚ) (shape : String) : ℚ :=
  let events := (matchEvents.filter (fun e => e.shape == shape)).map eventBody
  let events :=
    if shape == "TV6" || shape == "TV7" || shape == "TV8" then
      let chan := shapeChan shape
      let broad_events := ((matchEvents.filter
        (fun e => bodyEqStr (eventBody e) ("broad" ++ chan))).map eventBody)
      let broad_events_times := broad_events.map (fun b => b.1)
      let event_remove := events.filter (fun b => broad_events_times.contains b.1)
      event_remove.foldl (fun evs b => evs.erase b) events
    else events
  (events.map value).sum

/-
Concrete inputs used below.
-/

/-- An unmasked two-sample, one-channel, one-polarization spectrum with
values 1 and 2, `Nbls = 4`, order 0. -/
def wOrd0 : INS :=
  { T := 2, F := 1, P := 1,
    dataVal := fun t _ _ => (t : ℚ) + 1,
    dataMask := fun _ _ _ => false,
    nbls := fun _ _ _ => 4,
    order := 0 }

/-- An order-0 spectrum whose first time sample is masked. -/
def wMasked : INS :=
  { T := 2, F := 1, P := 1,
    dataVal := fun _ _ _ => 1,
    dataMask := fun t _ _ => decide (t = 0),
    nbls := fun _ _ _ => 1,
    order := 0 }

/-- An order-1 spectrum with unmasked data: the input on which the
`order > 0` branch of `mean_subtract` runs its loop body. -/
def wOrd1 : INS :=
  { T := 2, F := 1, P := 1,
    dataVal := fun t _ _ => (t : ℚ) + 1,
    dataMask := fun _ _ _ => false,
    nbls := fun _ _ _ => 1,
    order := 1 }

/-- An order-1 spectrum with two good channels carrying two distinct mask
patterns (channel 1 is masked at its first time sample). -/
def wGroup : INS :=
  { T := 3, F := 2, P := 1,
    dataVal := fun t ch _ => (t : ℚ) + (ch : ℚ) + 1,
    dataMask := fun t ch _ => decide (t = 0 ∧ ch = 1),
    nbls := fun _ _ _ => 1,
    order := 1 }

/-- An order-0 spectrum with a constant unmasked channel of value 1 and
`Nbls = 1`. -/
def wConst1 : INS :=
  { T := 2, F := 1, P := 1,
    dataVal := fun _ _ _ => 1,
    dataMask := fun _ _ _ => false,
    nbls := fun _ _ _ => 1,
    order := 0 }

/-- An order-0 spectrum with a constant unmasked channel of value 3. -/
def wConst3 : INS :=
  { T := 2, F := 1, P := 1,
    dataVal := fun _ _ _ => 3,
    dataMask := fun _ _ _ => false,
    nbls := fun _ _ _ => 1,
    order := 0 }

/-- A `read_paths` mapping missing the required `freq_array` key. -/
def rpNoFreq : ReadPaths :=
  { hasData := true, hasNbls := true, hasFreqArray := false,
    hasPols := true, hasVisUnits := true, dataMaskHasShape := true }

/-- A complete `read_paths` mapping whose optional `pols` key is missing. -/
def rpNoPols : ReadPaths :=
  { hasData := true, hasNbls := true, hasFreqArray := true,
    hasPols := false, hasVisUnits := true, dataMaskHasShape := true }

/-- A complete `read_paths` mapping whose loaded `data` array carries the
scalar `nomask` instead of a full boolean mask. -/
def rpNoMask : ReadPaths :=
  { hasData := true, hasNbls := true, hasFreqArray := true,
    hasPols := true, hasVisUnits := true, dataMaskHasShape := false }

/-- An object with every attribute `save` touches except `counts`. -/
def aNoCounts : SaveAttrs :=
  { hasMatchEvents := true, hasChisqEvents := true, hasSampThreshEvents := true,
    hasData := true, hasDataMs := true, hasNbls := true,
    hasCounts := false, hasBins := true,
    hasFreqArray := true, hasPols := false, hasVisUnits := true }

/-- Two match events at time index 0: a `TV6` detection and a `broad6`
detection. -/
def evsTV6 : List MatchEvent := [⟨0, [], "TV6"⟩, ⟨0, [], "broad6"⟩]

/-- A brightness function giving 5 to the event body at time 0. -/
def valTV6 : Int × List Int → ℚ := fun b => if b = (0, []) then 5 else 0

/-
Helper lemmas.
-/

/-- Looking an element up at its own index yields the element. -/
theorem getD_indexOf_eq {α : Type} [BEq α] [LawfulBEq α] (l : List α) (a d : α)
    (h : a ∈ l) : l.getD (l.indexOf a) d = a := by
  induction l with
  | nil => cases h
  | cons x xs ih =>
    rw [List.indexOf_cons]
    by_cases hx : x = a
    · rw [hx]
      simp
    · have hb : (x == a) = false := by
        simp [hx]
      rw [hb]
      have hmem : a ∈ xs := by
        cases h with
        | head => exact absurd rfl hx
        | tail _ h2 => exact h2
      simpa using ih hmem

/-- A good channel is grouped under its own mask pattern: the unique mask
column that lines 109-113 assign to a channel of `good_chans` is that
channel's own mask column. -/
theorem groupPattern_eq_own (s : INS) (p ch : Nat) (h : ch ∈ goodChans s p) :
    groupPattern s p ch = channelMaskList s p ch := by
  have h1 : channelMaskList s p ch
      ∈ (goodChans s p).map (fun c => channelMaskList s p c) :=
    List.mem_map_of_mem _ h
  have h2 : channelMaskList s p ch
      ∈ ((goodChans s p).map (fun c => channelMaskList s p c)).dedup :=
    List.mem_dedup.mpr h1
  unfold groupPattern
  show (((goodChans s p).map (fun c => channelMaskList s p c)).dedup).getD
      ((((goodChans s p).map (fun c => channelMaskList s p c)).dedup).indexOf
        (channelMaskList s p ch)) [] = channelMaskList s p ch
  exact getD_indexOf_eq _ _ _ h2

/-- The list form of the masked time-mean numerator agrees with the
finite-set form. -/
theorem filteredSum_eq (n : Nat) (m : Nat → Bool) (v : Nat → ℚ) :
    (((List.range n).filter (fun u => !(m u))).map v).sum
      = ∑ u ∈ (Finset.range n).filter (fun u => m u = false), v u := by
  induction n with
  | zero => simp
  | succ k ih =>
    rw [List.range_succ, List.filter_append, List.map_append, List.sum_append,
      Finset.range_succ, Finset.filter_insert]
    by_cases hk : m k = false
    · rw [if_pos hk, Finset.sum_insert (by simp)]
      have h1 : (List.filter (fun u => !(m u)) [k]).map v = [v k] := by
        simp [hk]
      rw [h1, ih]
      simp [add_comm]
    · have hk' : m k = true := by
        revert hk
        cases m k <;> simp
      rw [if_neg hk]
      have h1 : (List.filter (fun u => !(m u)) [k]).map v = [] := by
        simp [hk']
      rw [h1, ih]
      simp

/-- The list form of the masked time-mean denominator agrees with the
finite-set form, as natural numbers. -/
theorem filteredLenNat_eq (n : Nat) (m : Nat → Bool) :
    ((List.range n).filter (fun u => !(m u))).length
      = ((Finset.range n).filter (fun u => m u = false)).card := by
  induction n with
  | zero => simp
  | succ k ih =>
    rw [List.range_succ, List.filter_append, List.length_append,
      Finset.range_succ, Finset.filter_insert]
    by_cases hk : m k = false
    · rw [if_pos hk, Finset.card_insert_of_not_mem (by simp)]
      have h1 : (List.filter (fun u => !(m u)) [k]).length = 1 := by
        simp [hk]
      rw [h1, ih]
    · have hk' : m k = true := by
        revert hk
        cases m k <;> simp
      rw [if_neg hk]
      have h1 : (List.filter (fun u => !(m u)) [k]).length = 0 := by
        simp [hk']
      rw [h1, Nat.add_zero, ih]

/-- The list form of the masked time-mean denominator agrees with the
finite-set form, in ℚ. -/
theorem filteredLen_eq (n : Nat) (m : Nat → Bool) :
    (((List.range n).filter (fun u => !(m u))).length : ℚ)
      = (((Finset.range n).filter (fun u => m u = false)).card : ℚ) := by
  rw [filteredLenNat_eq]

/-- The Rayleigh variance-correction constant is positive. -/
theorem Cconst_pos : 0 < Cconst := by
  have h1 : (1 : ℝ) < 4 / Real.pi := (one_lt_div Real.pi_pos).mpr Real.pi_lt_four
  unfold Cconst
  linarith

/-
Claim theorems.
-/

/-- C1: for fit order 0, `mean_subtract` returns normally and, at every
in-range unmasked position whose channel mean is nonzero, the returned
element at (t, f, p) equals `(data[t,f,p] / mean_f - 1) * sqrt(Nbls[t,f,p] / C)`,
where `mean_f` is the mean of the data over the time axis at (f, p)
computed excluding masked entries, and `C = 4/pi - 1`. -/
theorem C1_order0_formula (s : INS) (h0 : s.order = 0) (t f p : Nat)
    (ht : t < s.T) (hm : s.dataMask t f p = false)
    (hmean : channelMeanL s f p ≠ 0) :
    msIsOk (mean_subtract s) = true
    ∧ msMask (mean_subtract s) t f p = false
    ∧ msVal (mean_subtract s) t f p
        = ((s.dataVal t f p
            / ((∑ u ∈ (Finset.range s.T).filter (fun u => s.dataMask u f p = false),
                  s.dataVal u f p)
               / (((Finset.range s.T).filter (fun u => s.dataMask u f p = false)).card : ℚ))
            - 1 : ℚ) : ℝ)
          * Real.sqrt (((s.nbls t f p : ℚ) : ℝ) / Cconst) := by
  have hok : mean_subtract s
      = Except.ok ⟨fun a b c => ms0val s a b c, fun a b c => ms0mask s a b c⟩ := by
    unfold mean_subtract
    rw [if_pos h0]
  have hall : allMasked0 s f p = false := by
    apply Bool.eq_false_iff.mpr
    intro hco
    rw [allMasked0, List.all_eq_true] at hco
    have h2 := hco t (List.mem_range.mpr ht)
    rw [hm] at h2
    cases h2
  refine ⟨?_, ?_, ?_⟩
  · rw [hok]
    rfl
  · rw [hok]
    show ms0mask s t f p = false
    unfold ms0mask
    rw [hm, hall]
    simp [hmean]
  · rw [hok]
    show ms0val s t f p = _
    have hcm : channelMeanL s f p
        = (∑ u ∈ (Finset.range s.T).filter (fun u => s.dataMask u f p = false),
            s.dataVal u f p)
          / (((Finset.range s.T).filter (fun u => s.dataMask u f p = false)).card : ℚ) := by
      unfold channelMeanL
      show (((List.range s.T).filter (fun u => !(s.dataMask u f p))).map
            (fun u => s.dataVal u f p)).sum
          / ((((List.range s.T).filter (fun u => !(s.dataMask u f p))).length : ℚ)) = _
      rw [filteredSum_eq s.T (fun u => s.dataMask u f p) (fun u => s.dataVal u f p),
        filteredLen_eq s.T (fun u => s.dataMask u f p)]
    unfold ms0val
    rw [hcm]

/-- Witness for C1 at the concrete input `wOrd0` (values 1 and 2, no mask,
`Nbls = 4`), time 0. -/
theorem C1_order0_formula_witness :
    msIsOk (mean_subtract wOrd0) = true
    ∧ msMask (mean_subtract wOrd0) 0 0 0 = false
    ∧ msVal (mean_subtract wOrd0) 0 0 0
        = ((wOrd0.dataVal 0 0 0
            / ((∑ u ∈ (Finset.range wOrd0.T).filter (fun u => wOrd0.dataMask u 0 0 = false),
                  wOrd0.dataVal u 0 0)
               / (((Finset.range wOrd0.T).filter (fun u => wOrd0.dataMask u 0 0 = false)).card : ℚ))
            - 1 : ℚ) : ℝ)
          * Real.sqrt (((wOrd0.nbls 0 0 0 : ℚ) : ℝ) / Cconst) :=
  C1_order0_formula wOrd0 rfl 0 0 0 (by decide) rfl
    (by norm_num [channelMeanL, wOrd0, List.range_succ, List.range_zero])

/-- C2: whenever `mean_subtract` returns an array, the mask of that array
is set at every position where the mask of `data` is set: the output mask
is a superset of (or equal to) the data mask, and in particular a channel
fully masked across all times stays fully masked. -/
theorem C2_mask_superset (s : INS) (r : MSResult)
    (h : mean_subtract s = Except.ok r) (t f p : Nat)
    (hm : s.dataMask t f p = true) : r.mask t f p = true := by
  by_cases h0 : s.order = 0
  · unfold mean_subtract at h
    rw [if_pos h0] at h
    injection h with h1
    subst h1
    show ms0mask s t f p = true
    unfold ms0mask
    rw [hm]
    rfl
  · unfold mean_subtract at h
    rw [if_neg h0] at h
    by_cases hu : hasUnmaskedEntry s = true
    · rw [if_pos hu] at h
      cases h
    · rw [if_neg hu] at h
      injection h with h1
      subst h1
      exact hm

/-- Witness for C2 at `wMasked` (first time sample masked), position
(0, 0, 0). -/
theorem C2_mask_superset_witness : ms0mask wMasked 0 0 0 = true :=
  C2_mask_superset wMasked
    ⟨fun a b c => ms0val wMasked a b c, fun a b c => ms0mask wMasked a b c⟩
    rfl 0 0 0 rfl

/-- C3: on an order-1 input with unmasked data, `mean_subtract` raises
`NameError` when the loop body reaches `if coeff_write:` (line 115),
because the name `coeff_write` is defined nowhere in the program; neither
the fit output nor any coefficient file write is reached. -/
theorem C3_coeff_write_name_error :
    mean_subtract wOrd1 = Except.error (PyErr.nameError "name coeff_write is not defined") := rfl

/-- C4: for a channel of `good_chans`, the mask pattern the grouped fit of
lines 105-121 uses is the channel's own mask pattern, so the grouped
least-squares pass produces the same per-channel expected value `mu` at
every time index as fitting that channel independently with the same data
and order, and hence the same standardized output element. -/
theorem C4_grouped_fit_eq_indep (s : INS) (p ch : Nat) (_hord : 0 < s.order)
    (hch : ch ∈ goodChans s p) (t : Nat) :
    muGrouped s p ch t = muIndep s p ch t
    ∧ msFitVal s p ch t (muGrouped s p ch t)
        = msFitVal s p ch t (muIndep s p ch t) := by
  have hpat := groupPattern_eq_own s p ch hch
  have h1 : muGrouped s p ch t = muIndep s p ch t := by
    unfold muGrouped muIndep
    rw [hpat]
  exact ⟨h1, by rw [h1]⟩

/-- Witness for C4 at `wGroup` (two good channels with distinct mask
patterns), polarization 0, channel 1, time 0. -/
theorem C4_grouped_fit_eq_indep_witness :
    muGrouped wGroup 0 1 0 = muIndep wGroup 0 1 0
    ∧ msFitVal wGroup 0 1 0 (muGrouped wGroup 0 1 0)
        = msFitVal wGroup 0 1 0 (muIndep wGroup 0 1 0) :=
  C4_grouped_fit_eq_indep wGroup 0 1 (by decide) (by decide) 0

/-- C5: `_read` errors with an assertion failure when any of the required
keys `data`, `Nbls`, `freq_array` is missing, and, with the required keys
present (and the loaded `data` carrying a shaped mask), a missing optional
key (`pols` or `vis_units`) makes it emit the corresponding warning, leave
that attribute unset, and return normally. -/
theorem C5_read_required_optional (rp : ReadPaths) :
    ((rp.hasData = false ∨ rp.hasNbls = false ∨ rp.hasFreqArray = false) →
      isAssertErr (read_model rp) = true)
    ∧ (rp.hasData = true → rp.hasNbls = true → rp.hasFreqArray = true →
        rp.dataMaskHasShape = true →
        (isOkRead (read_model rp) = true
         ∧ (rp.hasPols = false →
             (warnsOf (read_model rp)).contains (optWarn "pols") = true
             ∧ (attrsOf (read_model rp)).contains "pols" = false)
         ∧ (rp.hasVisUnits = false →
             (warnsOf (read_model rp)).contains (optWarn "vis_units") = true
             ∧ (attrsOf (read_model rp)).contains "vis_units" = false))) := by
  rcases rp with ⟨d, n, fa, pl, vu, ms⟩
  cases d <;> cases n <;> cases fa <;> cases pl <;> cases vu <;> cases ms <;> decide

/-- Witness for C5: the mapping `rpNoFreq` (missing the required
`freq_array`) asserts, and `rpNoPols` (missing only the optional `pols`)
returns normally with the `pols` warning and without the `pols`
attribute. -/
theorem C5_read_required_optional_witness :
    isAssertErr (read_model rpNoFreq) = true
    ∧ isOkRead (read_model rpNoPols) = true
    ∧ (warnsOf (read_model rpNoPols)).contains (optWarn "pols") = true
    ∧ (attrsOf (read_model rpNoPols)).contains "pols" = false := by
  refine ⟨(C5_read_required_optional rpNoFreq).1 (Or.inr (Or.inr rfl)), ?_, ?_, ?_⟩
  · exact ((C5_read_required_optional rpNoPols).2 rfl rfl rfl rfl).1
  · exact (((C5_read_required_optional rpNoPols).2 rfl rfl rfl rfl).2.1 rfl).1
  · exact (((C5_read_required_optional rpNoPols).2 rfl rfl rfl rfl).2.1 rfl).2

/-- C6 counterexample: at the order-0 input `wConst1` (an unmasked channel
constant at value 1, `Nbls = 1`), the element returned by `mean_subtract`
at (0, 0, 0) equals 0, whereas the value `-1 * sqrt(Nbls / C)` the claim
asserts is nonzero. -/
theorem C6_counterexample :
    msVal (mean_subtract wConst1) 0 0 0 = 0
    ∧ (-1 : ℝ) * Real.sqrt (((wConst1.nbls 0 0 0 : ℚ) : ℝ) / Cconst) ≠ 0 := by
  constructor
  · have hok : mean_subtract wConst1
        = Except.ok ⟨fun a b c => ms0val wConst1 a b c,
            fun a b c => ms0mask wConst1 a b c⟩ := rfl
    rw [hok]
    show ms0val wConst1 0 0 0 = 0
    unfold ms0val
    have h1 : (wConst1.dataVal 0 0 0 / channelMeanL wConst1 0 0 - 1 : ℚ) = 0 := by
      norm_num [channelMeanL, wConst1, List.range_succ, List.range_zero]
    rw [h1]
    simp
  · have h2 : (0 : ℝ) < ((wConst1.nbls 0 0 0 : ℚ) : ℝ) / Cconst := by
      apply div_pos _ Cconst_pos
      norm_num [wConst1]
    have h3 : Real.sqrt (((wConst1.nbls 0 0 0 : ℚ) : ℝ) / Cconst) ≠ 0 :=
      ne_of_gt (Real.sqrt_pos.mpr h2)
    intro hc
    apply h3
    simpa using hc

/-- C6 amended: for fit order 0, an unmasked channel that is constant at a
nonzero value across a positive number of time samples yields
mean-subtracted elements equal to 0 throughout the channel (data divided by
its mean is 1, so the deviation factor vanishes). -/
theorem C6_amended_const_channel_zero (s : INS) (h0 : s.order = 0)
    (f p : Nat) (c : ℚ) (hc : c ≠ 0) (hT : 0 < s.T)
    (hval : ∀ u, u < s.T → s.dataVal u f p = c)
    (hmask : ∀ u, u < s.T → s.dataMask u f p = false)
    (t : Nat) (ht : t < s.T) :
    msVal (mean_subtract s) t f p = 0 := by
  have hok : mean_subtract s
      = Except.ok ⟨fun a b d => ms0val s a b d, fun a b d => ms0mask s a b d⟩ := by
    unfold mean_subtract
    rw [if_pos h0]
  rw [hok]
  show ms0val s t f p = 0
  have hfilter : (List.range s.T).filter (fun u => !(s.dataMask u f p))
      = List.range s.T := by
    rw [List.filter_eq_self]
    intro a ha
    rw [hmask a (List.mem_range.mp ha)]
    rfl
  have hmean : channelMeanL s f p = c := by
    unfold channelMeanL
    show (((List.range s.T).filter (fun u => !(s.dataMask u f p))).map
          (fun u => s.dataVal u f p)).sum
        / ((((List.range s.T).filter (fun u => !(s.dataMask u f p))).length : ℚ)) = c
    rw [hfilter]
    have hmap : (List.range s.T).map (fun u => s.dataVal u f p)
        = (List.range s.T).map (fun _ => c) :=
      List.map_congr_left (fun a ha => hval a (List.mem_range.mp ha))
    rw [hmap, List.map_const', List.sum_replicate, List.length_range,
      nsmul_eq_mul, mul_comm, mul_div_assoc, div_self, mul_one]
    exact Nat.cast_ne_zero.mpr (Nat.pos_iff_ne_zero.mp hT)
  unfold ms0val
  rw [hval t ht, hmean, div_self hc]
  simp

/-- Witness for the amended C6 at `wConst3` (constant value 3), time 0. -/
theorem C6_amended_const_channel_zero_witness :
    msVal (mean_subtract wConst3) 0 0 0 = 0 :=
  C6_amended_const_channel_zero wConst3 rfl 0 0 3 (by norm_num) (by decide)
    (fun _ _ => rfl) (fun _ _ => rfl) 0 (by decide)

/-- C7: with the three required keys present but the loaded `data` carrying
the scalar `nomask`, `_read` raises `NameError` at line 175: the statement
`data.mask = np.zeros(self.data.shape, dtype=bool)` assigns through the
undefined bare name `data` rather than installing the all-false mask on
`self.data`. -/
theorem C7_read_nomask_name_error :
    read_model rpNoMask = Except.error (PyErr.nameError "name data is not defined") := rfl

/-- C8: on the two events `(0, TV6)` and `(0, broad6)` with the body at
time 0 worth 5, the shape loop sums the TV6 event (result 5) even though a
`broad6` match exists at the same time index: the filter at line 46
compares `event[:-1]` (a tuple) with the string `broad6`, which is never
equal, so no narrowband event is ever excluded. -/
theorem C8_tv6_not_excluded :
    eventBrightnessSum evsTV6 valTV6 "TV6" = 5 := by
  simp [eventBrightnessSum, evsTV6, valTV6, eventBody, bodyEqStr]

/-- C9: `mean_subtract` mutates no attribute of the object it is called on
(the state component returned by the call is the input object itself,
whatever the order and data), and `metric_ms` is assigned exactly the
`mean_subtract` result, solely by the constructor. -/
theorem C9_mean_subtract_pure (o : INSObj) (s : INS) :
    (mean_subtract_call o).1 = o
    ∧ (mean_subtract_call o).2 = mean_subtract o.st
    ∧ (INS_init s).st = s
    ∧ (INS_init s).metric_ms = mean_subtract s :=
  ⟨rfl, rfl, rfl, rfl⟩

/-- C10: when the event-list and array attributes that `save` touches first
are present, a missing `counts` or `bins` attribute makes `save` raise
`AttributeError` after the three masked arrays (`data`, `data_ms`, `Nbls`)
have already been written (and before any metadata file), leaving the
output directory partially populated; when `counts` and `bins` are present,
absent metadata attributes (`freq_array`, `pols`, `vis_units`) are skipped
silently. -/
theorem C10_save_partial_write (a : SaveAttrs)
    (hme : a.hasMatchEvents = true) (hce : a.hasChisqEvents = true)
    (hse : a.hasSampThreshEvents = true) (hd : a.hasData = true)
    (hdm : a.hasDataMs = true) (hnb : a.hasNbls = true) :
    (a.hasCounts = false ∨ a.hasBins = false →
      isErrS (save_model a).2 = true
      ∧ "arrs/data" ∈ (save_model a).1
      ∧ "arrs/data_ms" ∈ (save_model a).1
      ∧ "arrs/Nbls" ∈ (save_model a).1
      ∧ "metadata/freq_array" ∉ (save_model a).1
      ∧ "metadata/pols" ∉ (save_model a).1
      ∧ "metadata/vis_units" ∉ (save_model a).1)
    ∧ (a.hasCounts = true → a.hasBins = true →
      isErrS (save_model a).2 = false
      ∧ (a.hasFreqArray = false → "metadata/freq_array" ∉ (save_model a).1)
      ∧ (a.hasPols = false → "metadata/pols" ∉ (save_model a).1)
      ∧ (a.hasVisUnits = false → "metadata/vis_units" ∉ (save_model a).1)) := by
  rcases a with ⟨me, ce, se, d, dm, nb, cnt, bn, fa, pl, vu⟩
  subst hme
  subst hce
  subst hse
  subst hd
  subst hdm
  subst hnb
  cases cnt <;> cases bn <;> cases fa <;> cases pl <;> cases vu <;>
    simp [save_model, isErrS]

/-- Witness for C10 at `aNoCounts` (everything present except `counts`,
with `pols` also absent). -/
theorem C10_save_partial_write_witness :
    isErrS (save_model aNoCounts).2 = true
    ∧ "arrs/data" ∈ (save_model aNoCounts).1
    ∧ "arrs/data_ms" ∈ (save_model aNoCounts).1
    ∧ "arrs/Nbls" ∈ (save_model aNoCounts).1
    ∧ "metadata/freq_array" ∉ (save_model aNoCounts).1
    ∧ "metadata/pols" ∉ (save_model aNoCounts).1
    ∧ "metadata/vis_units" ∉ (save_model aNoCounts).1 :=
  (C10_save_partial_write aNoCounts rfl rfl rfl rfl rfl rfl).1 (Or.inl rfl)
